import Mathlib

/-!
# Verification of the kr-civic-archive admission subsystem

Shallow embedding of the request-admission components of the repository:
client-identity resolution (`app/security_proxy.py`), the two fixed-window
rate limiters (`app/security_rate_limit.py`), the request-size guard
middleware (`app/bootstrap/middleware.py`) and the startup configuration
validation (`app/bootstrap/validation.py`), together with theorems settling
the specification claims about them.

Machine integers are modelled as `Nat`/`Int`; the monotonic clock as `Rat`;
Python exceptions as `Except`/`Option` results.
-/

namespace CivicArchive

/-! ## Python stdlib model: `int(str)` and the `ipaddress` module

The repository calls `int()` on header strings and `ipaddress.ip_address` /
`ipaddress.ip_network` for identity resolution.  These are modelled from the
CPython stdlib behaviour on the inputs the repository feeds them
(ASCII decimal strings for `int`, IP literals and `<addr>/<prefixlen>`
CIDR strings for `ipaddress`). -/

/-- The ASCII whitespace characters stripped by Python's `str.strip()`. -/
def isPySpace (c : Char) : Bool :=
  c = ' ' ∨ c = '\t' ∨ c = '\n' ∨ c = '\r' ∨ c = '\x0b' ∨ c = '\x0c'

/-- Python `str.strip()` on a character list. -/
def pyStrip (cs : List Char) : List Char :=
  ((cs.dropWhile isPySpace).reverse.dropWhile isPySpace).reverse

/-- Python `str.strip()`. -/
def pyStripS (s : String) : String := ⟨pyStrip s.data⟩

/-- Python `str.split(sep)` for a one-character separator: `"".split(sep)`
is `[""]`, adjacent separators yield empty fields. -/
def splitOnChar (sep : Char) : List Char → List (List Char)
  | [] => [[]]
  | c :: rest =>
    let r := splitOnChar sep rest
    if c = sep then [] :: r
    else
      match r with
      | [] => [[c]]
      | g :: gs => (c :: g) :: gs

/-- Decimal digits of a Python `int()` literal body: ASCII digits with single
underscores permitted between digits (`int("1_0") == 10`). -/
def pyIntDigits : List Char → Option Nat
  | [] => none
  | cs => go cs 0 false
where
  /-- `lastWasDigit` tracks that an underscore may only follow a digit and
  must be followed by one. -/
  go : List Char → Nat → Bool → Option Nat
  | [], acc, lastWasDigit => if lastWasDigit then some acc else none
  | c :: rest, acc, lastWasDigit =>
    if c.isDigit then go rest (acc * 10 + (c.toNat - '0'.toNat)) true
    else if c = '_' ∧ lastWasDigit then go rest acc false
    else none

/-- Model of Python `int(s)` on an already-stripped string: optional sign,
then decimal digits with optional single underscores between digits. -/
def pyInt? (s : String) : Option Int :=
  match s.data with
  | '+' :: rest => (pyIntDigits rest).map (Int.ofNat)
  | '-' :: rest => (pyIntDigits rest).map (fun n => -(Int.ofNat n))
  | cs => (pyIntDigits cs).map (Int.ofNat)

/-- Model of `ipaddress._parse_octet`: non-empty, all ASCII decimal digits,
at most 3 characters, no leading zero, value at most 255. -/
def parseOctet (cs : List Char) : Option Nat :=
  if cs = [] then none
  else if ¬ cs.all Char.isDigit then none
  else if 3 < cs.length then none
  else if cs.head? = some '0' ∧ 1 < cs.length then none
  else
    let v := cs.foldl (fun acc c => acc * 10 + (c.toNat - '0'.toNat)) 0
    if v ≤ 255 then some v else none

/-- `IPv4Address.__init__` on a character list: no `/`, exactly four
dot-separated octets, each parsed by `parseOctet`.  Returns the 32-bit
integer value. -/
def parseIPv4Chars (cs : List Char) : Option Nat :=
  if cs.contains '/' then none
  else
    match (splitOnChar '.' cs).mapM parseOctet with
    | some [a, b, c, d] => some (((a * 256 + b) * 256 + c) * 256 + d)
    | _ => none

/-- Model of `IPv4Address.__init__` on a string. -/
def parseIPv4 (s : String) : Option Nat :=
  parseIPv4Chars s.data

/-- ASCII hexadecimal digit test. -/
def isHexChar (c : Char) : Bool :=
  c.isDigit ∨ ('a' ≤ c ∧ c ≤ 'f') ∨ ('A' ≤ c ∧ c ≤ 'F')

/-- The value of one ASCII hexadecimal digit. -/
def hexVal (c : Char) : Nat :=
  if c.isDigit then c.toNat - '0'.toNat
  else if 'a' ≤ c then c.toNat - 'a'.toNat + 10
  else c.toNat - 'A'.toNat + 10

/-- Model of `ipaddress._parse_hextet`: one to four hex digits. -/
def parseHextet (cs : List Char) : Option Nat :=
  if cs = [] ∨ 4 < cs.length ∨ ¬ cs.all isHexChar then none
  else some (cs.foldl (fun acc c => acc * 16 + hexVal c) 0)

/-- A colon-separated piece of an IPv6 literal: empty (part of `::`),
a parsed hextet value, or malformed. -/
inductive Hpart
  | emp
  | num (n : Nat)
  | bad
deriving DecidableEq

def toHpart (cs : List Char) : Hpart :=
  if cs = [] then .emp
  else match parseHextet cs with
    | some n => .num n
    | none => .bad

/-- Indices `1 .. len-2` holding an empty part (the `::` position);
mirrors the `skip_index` scan of `IPv6Address._ip_int_from_string`. -/
def skipIndices (parts : List Hpart) : List Nat :=
  (List.range parts.length).filter
    (fun i => 0 < i ∧ i + 1 < parts.length ∧ parts.getD i .bad = .emp)

def hpartsVal (parts : List Hpart) : Option Nat :=
  parts.foldl (fun acc p =>
    match acc, p with
    | some a, .num n => some (a * 65536 + n)
    | _, _ => none) (some 0)

/-- Core of `IPv6Address._ip_int_from_string` after splitting on `:` and
expanding a trailing embedded IPv4 address into two hextets. -/
def parseIPv6Parts (parts : List Hpart) : Option Nat :=
  if parts.any (· = .bad) then none
  else if 9 < parts.length then none
  else
    match skipIndices parts with
    | [] =>
      if parts.length ≠ 8 then none
      else if parts.getD 0 .bad = .emp then none
      else if parts.getD 7 .bad = .emp then none
      else hpartsVal parts
    | [skip] =>
      let partsHi0 := skip
      let partsLo0 := parts.length - skip - 1
      let headEmp := parts.getD 0 .bad = .emp
      let lastEmp := parts.getD (parts.length - 1) .bad = .emp
      if headEmp ∧ partsHi0 - 1 ≠ 0 then none
      else if lastEmp ∧ partsLo0 - 1 ≠ 0 then none
      else
        let partsHi := if headEmp then partsHi0 - 1 else partsHi0
        let partsLo := if lastEmp then partsLo0 - 1 else partsLo0
        if 8 ≤ partsHi + partsLo then none
        else
          match hpartsVal (parts.take partsHi),
                hpartsVal ((parts.drop (parts.length - partsLo)).take partsLo) with
          | some hi, some lo => some (hi * 65536 ^ (8 - partsHi) + lo)
          | _, _ => none
    | _ => none

/-- Model of `IPv6Address.__init__` on a string: optional `%scope` suffix,
no `/`, at least three colon-separated parts, optional trailing embedded
IPv4 address, at most one `::`.  Returns the 128-bit integer value. -/
def parseIPv6 (s0 : String) : Option Nat :=
  if s0.data.contains '/' then none
  else
  let (s, scopeOk) :=
    match splitOnChar '%' s0.data with
    | [a] => (a, true)
    | [a, sc] => (a, sc ≠ [])
    | _ => ([], false)
  if ¬ scopeOk then none
  else
    let raw := splitOnChar ':' s
    if raw.length < 3 then none
    else
      match raw.getLast? with
      | none => none
      | some last =>
        if last.contains '.' then
          match parseIPv4Chars last with
          | none => none
          | some v =>
            parseIPv6Parts (raw.dropLast.map toHpart ++
              [.num (v / 65536), .num (v % 65536)])
        else
          parseIPv6Parts (raw.map toHpart)

/-- An IP address as produced by `ipaddress.ip_address`. -/
inductive IPAddr
  | v4 (val : Nat)
  | v6 (val : Nat)
deriving DecidableEq

/-- Model of `ipaddress.ip_address(str)`: try IPv4 first, then IPv6;
`none` models the `ValueError` raised when neither parses. -/
def ip_address (s : String) : Option IPAddr :=
  match parseIPv4 s with
  | some v => some (.v4 v)
  | none =>
    match parseIPv6 s with
    | some v => some (.v6 v)
    | none => none

/-- An IPv4 or IPv6 network (`TrustedProxyNetwork` in `security_proxy.py`):
the masked network address and the prefix length. -/
inductive IPNet
  | v4 (net : Nat) (plen : Nat)
  | v6 (net : Nat) (plen : Nat)
deriving DecidableEq

/-- The netmask integer for a prefix length: the high `plen` bits of a
`bits`-wide word. -/
def maskOf (bits plen : Nat) : Nat := 2 ^ bits - 2 ^ (bits - plen)

/-- Model of `addr in network` (`_BaseNetwork.__contains__`): `False` across
versions, else compare the masked address with the network address. -/
def IPAddr.memNet : IPAddr → IPNet → Bool
  | .v4 a, .v4 net p => a &&& maskOf 32 p == net
  | .v6 a, .v6 net p => a &&& maskOf 128 p == net
  | _, _ => false

/-- Model of `_prefix_from_prefix_string`: all ASCII digits, value at most
`bits` (leading zeros are accepted there, unlike in octets). -/
def parsePrefixLen (bits : Nat) (cs : List Char) : Option Nat :=
  if cs ≠ [] ∧ cs.all Char.isDigit then
    let v := cs.foldl (fun acc c => acc * 10 + (c.toNat - '0'.toNat)) 0
    if v ≤ bits then some v else none
  else none

/-- Model of `ipaddress.ip_network(s, strict=False)` for the forms the
repository's configuration uses: `<address>` or `<address>/<prefixlen>`
(the stdlib's dotted-netmask alternative is not exercised by the
repository and is not modelled).  With `strict=False` the host bits are
masked away. -/
def ip_network (s : String) : Option IPNet :=
  match splitOnChar '/' s.data with
  | [addr] =>
    (match parseIPv4Chars addr with
     | some v => some (.v4 v 32)
     | none => (parseIPv6 ⟨addr⟩).map (fun v => IPNet.v6 v 128))
  | [addr, plen] =>
    (match parseIPv4Chars addr with
     | some v => (parsePrefixLen 32 plen).map
         (fun p => IPNet.v4 (v &&& maskOf 32 p) p)
     | none =>
       match parseIPv6 ⟨addr⟩ with
       | some v => (parsePrefixLen 128 plen).map
           (fun p => IPNet.v6 (v &&& maskOf 128 p) p)
       | none => none)
  | _ => none

/-! ## `app/security_proxy.py` -/

/-- Request headers, as the lookup `request.headers.get(name)`. -/
def Headers := String → Option String

/-- A request as seen by `security_proxy`: the optional client peer address
(`request.client.host`) and the headers. -/
structure ProxyRequest where
  client : Option String
  headers : Headers

/-- `security_proxy.remote_ip`: `request.client.host if request.client else
"unknown"`. -/
def remote_ip (request : ProxyRequest) : String :=
  request.client.getD "unknown"

/-- `security_proxy.parse_trusted_proxy_networks`: strip each entry, skip
empties, parse via `ip_network` (a failure raises `RuntimeError`). -/
def parse_trusted_proxy_networks (cidrs : List String) :
    Except String (List IPNet) :=
  cidrs.foldlM (fun acc raw =>
    let value := pyStripS raw
    if value = "" then pure acc
    else
      match ip_network value with
      | some network => pure (acc ++ [network])
      | none => .error ("Invalid TRUSTED_PROXY_CIDRS entry: " ++ value)) []

/-- `security_proxy.is_trusted_proxy`: false for an empty network list or an
unparseable address, else membership in any configured network. -/
def is_trusted_proxy (remoteIpValue : String)
    (trustedProxyNetworks : List IPNet) : Bool :=
  if trustedProxyNetworks.isEmpty then false
  else
    match ip_address remoteIpValue with
    | none => false
    | some remoteAddr => trustedProxyNetworks.any remoteAddr.memNet

/-- `security_proxy.client_key`: the peer address unless the peer is a
trusted proxy, in which case the trimmed first comma-separated hop of
`X-Forwarded-For` when it parses as an IP literal. -/
def client_key (request : ProxyRequest)
    (trustedProxyNetworks : List IPNet) : String :=
  let resolvedRemoteIp := remote_ip request
  if ¬ is_trusted_proxy resolvedRemoteIp trustedProxyNetworks then
    resolvedRemoteIp
  else
    match request.headers "X-Forwarded-For" with
    | none => resolvedRemoteIp
    | some forwardedFor =>
      if forwardedFor = "" then resolvedRemoteIp
      else
        match (splitOnChar ',' forwardedFor.data).head? with
        | none => resolvedRemoteIp
        | some hop =>
          let firstHop : String := ⟨pyStrip hop⟩
          if firstHop = "" then resolvedRemoteIp
          else
            match ip_address firstHop with
            | some _ => firstHop
            | none => resolvedRemoteIp

/-! ## `app/security_rate_limit.py`: `InMemoryRateLimiter`

The Python `dict[str, tuple[int, int]]` is modelled as an association list
with first-match lookup, in-place update of an existing key and append of a
new one, matching `dict` insertion semantics. -/

/-- `dict.get(key, default)` on an association list. -/
def dictGetD (m : List (String × Nat × Nat)) (k : String) (d : Nat × Nat) :
    Nat × Nat :=
  match m.find? (fun e => e.1 = k) with
  | some e => e.2
  | none => d

/-- `dict.get(key)` on an association list. -/
def dictGet? (m : List (String × Nat × Nat)) (k : String) :
    Option (Nat × Nat) :=
  (m.find? (fun e => e.1 = k)).map (·.2)

/-- `d[key] = value`: replace the first entry with this key in place, or
append a new one. -/
def dictSet (m : List (String × Nat × Nat)) (k : String) (v : Nat × Nat) :
    List (String × Nat × Nat) :=
  match m with
  | [] => [(k, v)]
  | e :: rest => if e.1 = k then (k, v) :: rest else e :: dictSet rest k v

/-- `InMemoryRateLimiter`: `requests_per_minute` already clamped by the
constructor's `max(0, requests_per_minute)`, and the `_windows` map. -/
structure InMemoryRateLimiter where
  requests_per_minute : Nat
  windows : List (String × Nat × Nat)
deriving DecidableEq

/-- `InMemoryRateLimiter.__init__`. -/
def mkInMemoryRateLimiter (requestsPerMinute : Int) : InMemoryRateLimiter :=
  { requests_per_minute := (max 0 requestsPerMinute).toNat, windows := [] }

def InMemoryRateLimiter.enabled (L : InMemoryRateLimiter) : Bool :=
  0 < L.requests_per_minute

/-- `InMemoryRateLimiter._prune`: skip below 4096 entries, else drop every
entry whose window is before `now_window - 1`. -/
def inMemPrune (windows : List (String × Nat × Nat)) (nowWindow : Nat) :
    List (String × Nat × Nat) :=
  if windows.length < 4096 then windows
  else windows.filter (fun e => nowWindow - 1 ≤ e.2.1)

/-- `InMemoryRateLimiter.allow`, with the wall clock
(`int(time.time() // 60)`) passed in as whole seconds. -/
def InMemoryRateLimiter.allow (L : InMemoryRateLimiter) (key : String)
    (nowSeconds : Nat) : InMemoryRateLimiter × Bool :=
  if ¬ L.enabled then (L, true)
  else
    let nowWindow := nowSeconds / 60
    let pc := dictGetD L.windows key (nowWindow, 0)
    let pc := if pc.1 ≠ nowWindow then (nowWindow, 0) else pc
    let count := pc.2 + 1
    let windows := dictSet L.windows key (pc.1, count)
    let windows := inMemPrune windows nowWindow
    ({ L with windows := windows }, count ≤ L.requests_per_minute)

/-! ## `app/security_rate_limit.py`: `RedisRateLimiter`

The Redis client is modelled as an oracle giving the outcome of each store
operation the limiter may issue during one `allow` call: `script_load`,
`evalsha` (which may raise `NoScriptError` or a generic `RedisError`), and
`eval`.  A raised `RedisError` is the `Except.error` case. -/

/-- Outcome of `client.script_load(script)`. -/
inductive LoadOutcome
  | ok (sha : String)
  | err
deriving DecidableEq

/-- Outcome of `client.evalsha(sha, ...)`: a count, `NoScriptError`, or a
generic `RedisError`. -/
inductive EvalshaOutcome
  | ok (n : Nat)
  | noscript
  | err
deriving DecidableEq

/-- Outcome of `client.eval(script, ...)`. -/
inductive EvalOutcome
  | ok (n : Nat)
  | err
deriving DecidableEq

/-- The store's behaviour during a single `allow` call. -/
structure StoreOracle where
  load : LoadOutcome
  evalsha : EvalshaOutcome
  eval : EvalOutcome

/-- `RedisRateLimiter` state: configuration fields after the constructor's
clamping, the cached script handle, and the degraded-mode deadline on the
monotonic clock. -/
structure RedisRateLimiter where
  requests_per_minute : Nat
  window_seconds : Nat
  failure_cooldown_seconds : Nat
  fail_open : Bool
  script_sha : Option String
  hasClient : Bool
  degraded_until : ℚ
deriving DecidableEq

def RedisRateLimiter.enabled (L : RedisRateLimiter) : Bool :=
  0 < L.requests_per_minute

/-- `RedisRateLimiter.__init__`: clamp `requests_per_minute` with
`max(0, ·)`, `window_seconds` with `max(1, ·)`, `failure_cooldown_seconds`
with `max(1, ·)`; raise when enabled and the redis dependency is missing;
connect a client only when enabled. -/
def mkRedisRateLimiter (requestsPerMinute windowSeconds cooldownSeconds : Int)
    (failOpen : Bool) (redisAvailable : Bool) :
    Except String RedisRateLimiter :=
  let rpm := (max 0 requestsPerMinute).toNat
  let st : RedisRateLimiter :=
    { requests_per_minute := rpm
      window_seconds := (max 1 windowSeconds).toNat
      failure_cooldown_seconds := (max 1 cooldownSeconds).toNat
      fail_open := failOpen
      script_sha := none
      hasClient := 0 < rpm
      degraded_until := 0 }
  if 0 < rpm ∧ ¬ redisAvailable then
    .error "redis package is required for RATE_LIMIT_BACKEND=redis."
  else
    pure st

/-- Result of `RedisRateLimiter._eval_counter`: the updated script-handle
cache, the count or raised `RedisError`, and how many times the full script
was re-sent via `eval` (the retry after `NoScriptError`). -/
structure EvalCounterResult where
  script_sha : Option String
  outcome : Except Unit Nat
  evalResends : Nat

/-- `RedisRateLimiter._eval_counter`: load the script once into the handle
cache; run `evalsha`; on `NoScriptError` re-send the full script with
`eval` once; any `RedisError` propagates. -/
def evalCounter (scriptSha : Option String) (o : StoreOracle) :
    EvalCounterResult :=
  match scriptSha, o.load with
  | none, .err => ⟨none, .error (), 0⟩
  | none, .ok sha => run sha
  | some sha, _ => run sha
where
  run (sha : String) : EvalCounterResult :=
    match o.evalsha with
    | .ok n => ⟨some sha, .ok n, 0⟩
    | .err => ⟨some sha, .error (), 0⟩
    | .noscript =>
      match o.eval with
      | .ok n => ⟨some sha, .ok n, 1⟩
      | .err => ⟨some sha, .error (), 1⟩

/-- Result of one `RedisRateLimiter.allow` call: the returned boolean, the
post-call state, whether any store operation was attempted, and the number
of `eval` re-sends. -/
structure RedisAllowResult where
  result : Bool
  state : RedisRateLimiter
  storeAttempted : Bool
  evalResends : Nat

/-- `RedisRateLimiter.allow`, with the monotonic clock reading passed in.
Disabled or client-less limiters allow immediately; in degraded mode
(`now < degraded_until`) return `fail_open` without touching the store; a
store error sets `degraded_until = now + failure_cooldown_seconds` and
returns `fail_open`; success clears `degraded_until` and compares the count
with the limit. -/
def RedisRateLimiter.allow (L : RedisRateLimiter) (now : ℚ)
    (o : StoreOracle) : RedisAllowResult :=
  if ¬ L.enabled then ⟨true, L, false, 0⟩
  else if L.hasClient = false then ⟨true, L, false, 0⟩
  else if now < L.degraded_until then ⟨L.fail_open, L, false, 0⟩
  else
    let r := evalCounter L.script_sha o
    match r.outcome with
    | .error _ =>
      ⟨L.fail_open,
        { L with script_sha := r.script_sha,
                 degraded_until := now + (L.failure_cooldown_seconds : ℚ) },
        true, r.evalResends⟩
    | .ok current =>
      ⟨current ≤ L.requests_per_minute,
        { L with script_sha := r.script_sha, degraded_until := 0 },
        true, r.evalResends⟩

/-! ## `app/config.py` and `app/bootstrap/validation.py` -/

/-- The configuration fields read by `validate_startup_config` and
`build_rate_limiter` (`app/config.py`'s `Config`). -/
structure Config where
  BOOTSTRAP_TABLES_ON_STARTUP : Bool
  REQUIRE_API_KEY : Bool
  API_KEY : Option String
  REQUIRE_JWT : Bool
  JWT_SECRET : Option String
  JWT_ALGORITHM : String
  JWT_LEEWAY_SECONDS : Int
  RATE_LIMIT_PER_MINUTE : Int
  RATE_LIMIT_BACKEND : String
  REDIS_URL : Option String
  RATE_LIMIT_REDIS_WINDOW_SECONDS : Int
  RATE_LIMIT_REDIS_FAILURE_COOLDOWN_SECONDS : Int
  RATE_LIMIT_FAIL_OPEN : Bool
  DB_POOL_SIZE : Int
  DB_MAX_OVERFLOW : Int
  DB_POOL_TIMEOUT_SECONDS : Int
  DB_POOL_RECYCLE_SECONDS : Int
  DB_CONNECT_TIMEOUT_SECONDS : Int
  DB_STATEMENT_TIMEOUT_MS : Int
  INGEST_MAX_BATCH_ITEMS : Int
  MAX_REQUEST_BODY_BYTES : Int
  SECURITY_STRICT_MODE : Bool
  APP_ENV : String
  ALLOWED_HOSTS : List String
  CORS_ALLOW_ORIGINS : List String

/-- ASCII lowercasing (Python `str.lower()` on the ASCII inputs used). -/
def pyLowerChar (c : Char) : Char :=
  if 'A' ≤ c ∧ c ≤ 'Z' then Char.ofNat (c.toNat + 32) else c

/-- ASCII uppercasing (Python `str.upper()` on the ASCII inputs used). -/
def pyUpperChar (c : Char) : Char :=
  if 'a' ≤ c ∧ c ≤ 'z' then Char.ofNat (c.toNat - 32) else c

def pyLowerS (s : String) : String := ⟨s.data.map pyLowerChar⟩

def pyUpperS (s : String) : String := ⟨s.data.map pyUpperChar⟩

/-- `Config.rate_limit_backend`: strip, lowercase, default `"memory"`. -/
def Config.rate_limit_backend (c : Config) : String :=
  let value := pyLowerS (pyStripS c.RATE_LIMIT_BACKEND)
  if value = "" then "memory" else value

/-- `Config.app_env`: strip, lowercase, default `"development"`. -/
def Config.app_env (c : Config) : String :=
  let value := pyLowerS (pyStripS c.APP_ENV)
  if value = "" then "development" else value

/-- `Config.strict_security_mode`. -/
def Config.strict_security_mode (c : Config) : Bool :=
  c.SECURITY_STRICT_MODE ∨ c.app_env = "prod" ∨ c.app_env = "production"

/-- `validation.validate_startup_config`: the startup checks in source
order; an `Except.error` models the raised `RuntimeError` that aborts
startup. -/
def validate_startup_config (config : Config) : Except String Unit :=
  if config.BOOTSTRAP_TABLES_ON_STARTUP then
    .error "BOOTSTRAP_TABLES_ON_STARTUP is disabled."
  else if config.REQUIRE_API_KEY ∧ pyStripS (config.API_KEY.getD "") = "" then
    .error "REQUIRE_API_KEY=1 requires API_KEY to be set."
  else
  let jwtSecret := pyStripS (config.JWT_SECRET.getD "")
  if config.REQUIRE_JWT ∧ jwtSecret = "" then
    .error "REQUIRE_JWT=1 requires JWT_SECRET to be set."
  else if config.REQUIRE_JWT ∧ jwtSecret.utf8ByteSize < 32 then
    .error "JWT_SECRET must be at least 32 bytes."
  else if config.REQUIRE_JWT ∧
      pyUpperS (pyStripS config.JWT_ALGORITHM) ≠ "HS256" then
    .error "JWT_ALGORITHM must be HS256."
  else if config.JWT_LEEWAY_SECONDS < 0 then
    .error "JWT_LEEWAY_SECONDS must be greater than or equal to 0."
  else if config.rate_limit_backend ≠ "memory" ∧
      config.rate_limit_backend ≠ "redis" then
    .error "RATE_LIMIT_BACKEND must be one of: memory, redis."
  else if config.rate_limit_backend = "redis" ∧
      pyStripS (config.REDIS_URL.getD "") = "" then
    .error "RATE_LIMIT_BACKEND=redis requires REDIS_URL to be set."
  else if config.RATE_LIMIT_REDIS_FAILURE_COOLDOWN_SECONDS ≤ 0 then
    .error "RATE_LIMIT_REDIS_FAILURE_COOLDOWN_SECONDS must be greater than 0."
  else if config.DB_POOL_SIZE ≤ 0 then
    .error "DB_POOL_SIZE must be greater than 0."
  else if config.DB_MAX_OVERFLOW < 0 then
    .error "DB_MAX_OVERFLOW must be greater than or equal to 0."
  else if config.DB_POOL_TIMEOUT_SECONDS ≤ 0 then
    .error "DB_POOL_TIMEOUT_SECONDS must be greater than 0."
  else if config.DB_POOL_RECYCLE_SECONDS ≤ 0 then
    .error "DB_POOL_RECYCLE_SECONDS must be greater than 0."
  else if config.DB_CONNECT_TIMEOUT_SECONDS ≤ 0 then
    .error "DB_CONNECT_TIMEOUT_SECONDS must be greater than 0."
  else if config.DB_STATEMENT_TIMEOUT_MS ≤ 0 then
    .error "DB_STATEMENT_TIMEOUT_MS must be greater than 0."
  else if config.INGEST_MAX_BATCH_ITEMS ≤ 0 then
    .error "INGEST_MAX_BATCH_ITEMS must be greater than 0."
  else if config.MAX_REQUEST_BODY_BYTES ≤ 0 then
    .error "MAX_REQUEST_BODY_BYTES must be greater than 0."
  else if config.strict_security_mode ∧
      ¬ (config.REQUIRE_API_KEY ∨ config.REQUIRE_JWT) then
    .error "Strict security mode requires REQUIRE_API_KEY=1 or REQUIRE_JWT=1."
  else if config.strict_security_mode ∧ config.ALLOWED_HOSTS.contains "*" then
    .error "Strict security mode requires explicit ALLOWED_HOSTS."
  else if config.strict_security_mode ∧
      config.CORS_ALLOW_ORIGINS.contains "*" then
    .error "Strict security mode requires explicit CORS_ALLOW_ORIGINS."
  else if config.strict_security_mode ∧ config.RATE_LIMIT_PER_MINUTE ≤ 0 then
    .error "Strict security mode requires RATE_LIMIT_PER_MINUTE > 0."
  else
    pure ()

/-- The limiter a successful `build_rate_limiter` returns. -/
inductive BuiltLimiter
  | memory (L : InMemoryRateLimiter)
  | redis (L : RedisRateLimiter)
deriving DecidableEq

/-- `security_rate_limit.build_rate_limiter`. -/
def build_rate_limiter (config : Config) (redisAvailable : Bool) :
    Except String BuiltLimiter :=
  if config.rate_limit_backend = "redis" then
    let redisUrl := pyStripS (config.REDIS_URL.getD "")
    if redisUrl = "" then
      .error "RATE_LIMIT_BACKEND=redis requires REDIS_URL to be set."
    else
      (mkRedisRateLimiter config.RATE_LIMIT_PER_MINUTE
        config.RATE_LIMIT_REDIS_WINDOW_SECONDS
        config.RATE_LIMIT_REDIS_FAILURE_COOLDOWN_SECONDS
        config.RATE_LIMIT_FAIL_OPEN redisAvailable).map .redis
  else if config.rate_limit_backend = "memory" then
    pure (.memory (mkInMemoryRateLimiter config.RATE_LIMIT_PER_MINUTE))
  else
    .error "RATE_LIMIT_BACKEND must be one of: memory, redis."

/-! ## `app/bootstrap/middleware.py`: `request_size_guard`

The ASGI body stream is modelled as the list of `http.request` chunk sizes
in arrival order; the downstream application either completes with a
response or raises.  `guardStream` is `guarded_receive` together with the
transport loop that stops requesting chunks once a message with
`more_body=False` is returned. -/

def WRITE_METHODS : List String := ["POST", "PUT", "PATCH"]

/-- The guarded path root (the source's `API_PATH_` prefix constant). -/
def apiPathGuardRoot : String := "/api/"

/-- `_is_request_size_guard_target`. -/
def is_request_size_guard_target (path method : String) : Bool :=
  apiPathGuardRoot.data.isPrefixOf path.data ∧ WRITE_METHODS.contains method

/-- The final response of the middleware: an error response produced by the
guard (status, machine-readable code, details), or the downstream outcome
(completed response, or a re-raised exception). -/
inductive GuardResponse
  | errorResp (status : Nat) (code : String) (details : List (String × Int))
  | downstreamResp
  | downstreamRaise
deriving DecidableEq

/-- `guarded_receive` folded over the chunk stream: returns
`(received_bytes, overflowed, chunks consumed)`.  The moment a chunk takes
the running total over the limit, an end-of-body message is returned and no
further chunk is requested. -/
def guardStream (limit : Nat) (received : Nat) :
    List Nat → Nat × Bool × Nat
  | [] => (received, false, 0)
  | c :: rest =>
    if limit < received + c then (received + c, true, 1)
    else
      let r := guardStream limit (received + c) rest
      (r.1, r.2.1, r.2.2 + 1)

/-- The overflow details dict recorded by `guarded_receive`. -/
def overflowDetails (maxBytes receivedBytes : Nat)
    (contentLength : Option Int) : List (String × Int) :=
  [("max_request_body_bytes", (maxBytes : Int)),
   ("request_body_bytes", (receivedBytes : Int))] ++
    (match contentLength with
     | some v => [("content_length", v)]
     | none => [])

/-- The guarded branch of `request_size_guard` (the request matched the
target predicate): Content-Length pre-checks, then the guarded stream, then
the overflow check on both the normal path and the exception path.  The
second component is the number of body chunks consumed (`0` on the
pre-checks' early returns). -/
def requestSizeGuardCore (maxBytes : Nat) (contentLengthHeader : Option String)
    (chunks : List Nat) (downstreamRaises : Bool) : GuardResponse × Nat :=
  let raw := pyStripS (contentLengthHeader.getD "")
  let parsed : Option (Option Int) :=
    if raw = "" then some none
    else
      match pyInt? raw with
      | none => none
      | some v => some (some v)
  match parsed with
  | none => (.errorResp 400 "BAD_REQUEST" [], 0)
  | some contentLength =>
    match contentLength with
    | some v =>
      if (maxBytes : Int) < v then
        (.errorResp 413 "PAYLOAD_TOO_LARGE"
          [("max_request_body_bytes", (maxBytes : Int)),
           ("content_length", v)], 0)
      else streamPhase contentLength
    | none => streamPhase contentLength
where
  streamPhase (contentLength : Option Int) : GuardResponse × Nat :=
    let r := guardStream maxBytes 0 chunks
    if r.2.1 then
      (.errorResp 413 "PAYLOAD_TOO_LARGE"
        (overflowDetails maxBytes r.1 contentLength), r.2.2)
    else if downstreamRaises then (.downstreamRaise, r.2.2)
    else (.downstreamResp, r.2.2)

/-- The whole `request_size_guard` middleware: non-target requests pass
through untouched. -/
def request_size_guard (path method : String) (maxBytes : Nat)
    (contentLengthHeader : Option String) (chunks : List Nat)
    (downstreamRaises : Bool) : GuardResponse × Nat :=
  if is_request_size_guard_target path method then
    requestSizeGuardCore maxBytes contentLengthHeader chunks downstreamRaises
  else if downstreamRaises then (.downstreamRaise, chunks.length)
  else (.downstreamResp, chunks.length)

/-! ## Statement-level definitions and concrete fixtures -/

/-- The first hop of the claim and spec wording: trim the first
comma-separated hop of the header (empty when the split is empty). -/
def firstForwardedHop (xff : String) : String :=
  ⟨pyStrip ((splitOnChar ',' xff.data).headD [])⟩

/-- The count after one `allow` call, as the specification describes it:
the stored count when the stored bucket equals the current one, `0`
otherwise (reset on window rollover), plus one. -/
def windowCountAfter (m : List (String × Nat × Nat)) (k : String)
    (nw : Nat) : Nat :=
  (match dictGet? m k with
   | some wc => if wc.1 = nw then wc.2 else 0
   | none => 0) + 1

/-- A shared-store limiter state used to instantiate the Redis theorems. -/
def exampleRedisLimiter : RedisRateLimiter :=
  { requests_per_minute := 5
    window_seconds := 65
    failure_cooldown_seconds := 30
    fail_open := true
    script_sha := some "sha1"
    hasClient := true
    degraded_until := 0 }

/-- A redis-backend configuration that is valid in every respect except
for `RATE_LIMIT_REDIS_WINDOW_SECONDS = 0`. -/
def exampleConfigWindowZero : Config :=
  { BOOTSTRAP_TABLES_ON_STARTUP := false
    REQUIRE_API_KEY := false
    API_KEY := none
    REQUIRE_JWT := false
    JWT_SECRET := none
    JWT_ALGORITHM := "HS256"
    JWT_LEEWAY_SECONDS := 0
    RATE_LIMIT_PER_MINUTE := 10
    RATE_LIMIT_BACKEND := "redis"
    REDIS_URL := some "redis://localhost:6379/0"
    RATE_LIMIT_REDIS_WINDOW_SECONDS := 0
    RATE_LIMIT_REDIS_FAILURE_COOLDOWN_SECONDS := 5
    RATE_LIMIT_FAIL_OPEN := true
    DB_POOL_SIZE := 10
    DB_MAX_OVERFLOW := 20
    DB_POOL_TIMEOUT_SECONDS := 30
    DB_POOL_RECYCLE_SECONDS := 3600
    DB_CONNECT_TIMEOUT_SECONDS := 3
    DB_STATEMENT_TIMEOUT_MS := 5000
    INGEST_MAX_BATCH_ITEMS := 200
    MAX_REQUEST_BODY_BYTES := 1048576
    SECURITY_STRICT_MODE := false
    APP_ENV := "development"
    ALLOWED_HOSTS := ["*"]
    CORS_ALLOW_ORIGINS := ["*"] }

/-- The limiter `build_rate_limiter` constructs from
`exampleConfigWindowZero`: the non-positive window is clamped to `1`. -/
def exampleClampedLimiter : RedisRateLimiter :=
  { requests_per_minute := 10
    window_seconds := 1
    failure_cooldown_seconds := 5
    fail_open := true
    script_sha := none
    hasClient := true
    degraded_until := 0 }

/-- Decidable equality for `Except` results, used to evaluate the
validation and builder functions on concrete configurations. -/
instance {ε α : Type} [DecidableEq ε] [DecidableEq α] :
    DecidableEq (Except ε α) := fun x y =>
  match x, y with
  | .ok a, .ok b =>
    if h : a = b then .isTrue (congrArg Except.ok h)
    else .isFalse (fun hc => h (Except.ok.inj hc))
  | .error a, .error b =>
    if h : a = b then .isTrue (congrArg Except.error h)
    else .isFalse (fun hc => h (Except.error.inj hc))
  | .ok _, .error _ => .isFalse (fun hc => Except.noConfusion hc)
  | .error _, .ok _ => .isFalse (fun hc => Except.noConfusion hc)

/-! ## Helper lemmas -/

lemma ip_address_empty : ip_address "" = none := by decide

lemma ip_address_unknown : ip_address "unknown" = none := by decide


/-- When the peer is untrusted, `client_key` returns the peer address. -/
lemma client_key_of_untrusted (request : ProxyRequest) (nets : List IPNet)
    (h : is_trusted_proxy (remote_ip request) nets = false) :
    client_key request nets = remote_ip request := by
  unfold client_key
  simp [h]

lemma splitOnChar_ne_nil (sep : Char) (cs : List Char) :
    splitOnChar sep cs ≠ [] := by
  cases cs with
  | nil => simp [splitOnChar]
  | cons c rest =>
    unfold splitOnChar
    by_cases h : c = sep
    · simp [h]
    · simp only [if_neg h]
      cases splitOnChar sep rest <;> simp

/-- When the peer is trusted, `client_key` follows the first-hop rule. -/
lemma client_key_of_trusted (request : ProxyRequest) (nets : List IPNet)
    (h : is_trusted_proxy (remote_ip request) nets = true) :
    client_key request nets =
      (match request.headers "X-Forwarded-For" with
       | none => remote_ip request
       | some xff =>
         if (ip_address (firstForwardedHop xff)).isSome then
           firstForwardedHop xff
         else remote_ip request) := by
  unfold client_key
  simp only [h, Bool.true_eq_false, not_false_eq_true, if_neg,
    not_true_eq_false, if_false]
  cases hxff : request.headers "X-Forwarded-For" with
  | none => rfl
  | some xff =>
    by_cases hempty : xff = ""
    · subst hempty
      have h0 : ip_address
          (⟨pyStrip ((splitOnChar ',' ([] : List Char)).head?.getD [])⟩ :
            String) = none := by decide
      simp [firstForwardedHop, h0]
    · simp only [if_neg hempty]
      unfold firstForwardedHop
      cases hsp : splitOnChar ',' xff.data with
      | nil => exact absurd hsp (splitOnChar_ne_nil ',' xff.data)
      | cons hd tl =>
        simp only [List.head?, List.headD]
        by_cases hhop : (⟨pyStrip hd⟩ : String) = ""
        · have hnil : pyStrip hd = [] := congrArg String.data hhop
          have h0 : ip_address (⟨[]⟩ : String) = none := by decide
          simp [hhop, hnil, h0]
        · simp only [if_neg hhop]
          cases hip : ip_address ⟨pyStrip hd⟩ <;> simp [hip]

/-- `is_trusted_proxy` is `false` exactly when the peer fails to parse or
belongs to no configured network. -/
lemma is_trusted_proxy_eq_true_iff (p : String) (nets : List IPNet) :
    is_trusted_proxy p nets = true ↔
      ∃ a, ip_address p = some a ∧ nets.any a.memNet = true := by
  unfold is_trusted_proxy
  cases hne : nets.isEmpty with
  | true =>
    have : nets = [] := List.isEmpty_iff.mp hne
    subst this
    simp
  | false =>
    cases hip : ip_address p with
    | none => simp
    | some a => simp [hip]

/-! ## Claim theorems -/

/-- C2: identity resolution through trusted proxies.  A peer not contained
in any configured trusted network resolves to itself with the
`X-Forwarded-For` header ignored; a trusted peer resolves to the trimmed
first comma-separated hop of `X-Forwarded-For` when that hop is a legal IP
literal and to the peer otherwise; concretely, with
`trusted_proxy_cidrs=["127.0.0.1/32"]` and header
`X-Forwarded-For: 203.0.113.5, 198.51.100.7`, peer `127.0.0.1` resolves to
`203.0.113.5` while untrusted peer `10.0.0.1` resolves to `10.0.0.1`. -/
theorem client_key_trusted_proxy_resolution :
    (∀ (request : ProxyRequest) (nets : List IPNet),
      (∀ a, ip_address (remote_ip request) = some a →
        nets.any a.memNet = false) →
      client_key request nets = remote_ip request) ∧
    (∀ (request : ProxyRequest) (nets : List IPNet) (a : IPAddr),
      ip_address (remote_ip request) = some a →
      nets.any a.memNet = true →
      client_key request nets =
        (match request.headers "X-Forwarded-For" with
         | none => remote_ip request
         | some xff =>
           if (ip_address (firstForwardedHop xff)).isSome then
             firstForwardedHop xff
           else remote_ip request)) ∧
    parse_trusted_proxy_networks ["127.0.0.1/32"] =
      .ok [.v4 2130706433 32] ∧
    client_key
      ⟨some "127.0.0.1",
        fun k => if k = "X-Forwarded-For" then
          some "203.0.113.5, 198.51.100.7" else none⟩
      [.v4 2130706433 32] = "203.0.113.5" ∧
    client_key
      ⟨some "10.0.0.1",
        fun k => if k = "X-Forwarded-For" then
          some "203.0.113.5, 198.51.100.7" else none⟩
      [.v4 2130706433 32] = "10.0.0.1" := by
  refine ⟨?_, ?_, by rfl, by decide, by decide⟩
  · intro request nets h
    apply client_key_of_untrusted
    cases htr : is_trusted_proxy (remote_ip request) nets with
    | false => rfl
    | true =>
      obtain ⟨a, hip, hmem⟩ := (is_trusted_proxy_eq_true_iff _ _).mp htr
      rw [h a hip] at hmem
      cases hmem
  · intro request nets a hip hmem
    exact client_key_of_trusted request nets
      ((is_trusted_proxy_eq_true_iff _ _).mpr ⟨a, hip, hmem⟩)

/-- C2 witness: the untrusted and trusted cases instantiated at the claim's
concrete requests. -/
theorem client_key_trusted_proxy_resolution_witness :
    client_key
      ⟨some "10.0.0.1",
        fun k => if k = "X-Forwarded-For" then
          some "203.0.113.5, 198.51.100.7" else none⟩
      [.v4 2130706433 32] = remote_ip
      ⟨some "10.0.0.1",
        fun k => if k = "X-Forwarded-For" then
          some "203.0.113.5, 198.51.100.7" else none⟩ := by
  exact client_key_trusted_proxy_resolution.1 _ _
    (fun a hip => by
      have h1 : ip_address "10.0.0.1" = some (IPAddr.v4 167772161) := by decide
      have ha := Option.some.inj (h1.symm.trans hip)
      subst ha
      decide)

/-- C10: headers cannot interfere with identity when the peer is not a
trusted proxy for structural reasons.  If the peer string does not parse as
an IP literal, or the trusted-network list is empty, `client_key` returns
the peer string for every headers map, so two requests differing only in
their headers resolve to the same identity; the `"unknown"` peer used when
the request carries no client address is such a string. -/
theorem client_key_header_noninterference :
    (∀ (request : ProxyRequest) (nets : List IPNet),
      ip_address (remote_ip request) = none →
      client_key request nets = remote_ip request) ∧
    (∀ request : ProxyRequest, client_key request [] = remote_ip request) ∧
    (∀ (client : Option String) (nets : List IPNet) (h1 h2 : Headers),
      (ip_address (remote_ip ⟨client, h1⟩) = none ∨ nets = []) →
      client_key ⟨client, h1⟩ nets = client_key ⟨client, h2⟩ nets) ∧
    ip_address "unknown" = none ∧
    remote_ip ⟨none, fun _ => none⟩ = "unknown" := by
  have huntrusted : ∀ (request : ProxyRequest) (nets : List IPNet),
      ip_address (remote_ip request) = none →
      client_key request nets = remote_ip request := by
    intro request nets hip
    apply client_key_of_untrusted
    unfold is_trusted_proxy
    rw [hip]
    cases nets.isEmpty <;> rfl
  have hempty : ∀ request : ProxyRequest,
      client_key request [] = remote_ip request := by
    intro request
    apply client_key_of_untrusted
    rfl
  refine ⟨huntrusted, hempty, ?_, ip_address_unknown, rfl⟩
  intro client nets h1 h2 hcase
  cases hcase with
  | inl hip =>
    rw [huntrusted ⟨client, h1⟩ nets hip, huntrusted ⟨client, h2⟩ nets hip]
    rfl
  | inr hnil =>
    subst hnil
    rw [hempty ⟨client, h1⟩, hempty ⟨client, h2⟩]
    rfl

/-- C10 witness: the unparseable peer `"unknown"` with two different header
maps resolves identically. -/
theorem client_key_header_noninterference_witness :
    client_key ⟨none, fun k => if k = "X-Forwarded-For" then
        some "203.0.113.5" else none⟩ [.v4 2130706433 32] =
      client_key ⟨none, fun _ => none⟩ [.v4 2130706433 32] := by
  exact client_key_header_noninterference.2.2.1 none [.v4 2130706433 32]
    _ _ (Or.inl (by decide))

/-- C6 (code behaviour at the claimed fallback): with no client address and
a caller-supplied `X-Request-Id`, `remote_ip` returns the constant
`"unknown"` and `client_key` therefore resolves to `"unknown"`, not to
`"request-id:test-request-id"`; the `X-Real-IP` header is equally ignored. -/
theorem client_key_missing_client_returns_unknown :
    remote_ip ⟨none, fun k => if k = "X-Request-Id" then
        some "test-request-id" else none⟩ = "unknown" ∧
    client_key ⟨none, fun k => if k = "X-Request-Id" then
        some "test-request-id" else none⟩ [] = "unknown" ∧
    client_key ⟨none, fun k => if k = "X-Real-IP" then
        some "198.51.100.50" else none⟩ [] = "unknown" ∧
    "unknown" ≠ "request-id:test-request-id" ∧
    "unknown" ≠ "198.51.100.50" := by
  refine ⟨rfl, ?_, ?_, by decide, by decide⟩ <;>
    exact client_key_of_untrusted _ [] rfl

/-! ## In-memory limiter lemmas -/

lemma find?_dictSet (m : List (String × Nat × Nat)) (k : String)
    (v : Nat × Nat) :
    (dictSet m k v).find? (fun e => e.1 = k) = some (k, v) := by
  induction m with
  | nil => simp [dictSet]
  | cons e rest ih =>
    unfold dictSet
    by_cases h : e.1 = k
    · simp [h]
    · simp [h, ih]

lemma find?_filter_of_found (p : String × Nat × Nat → Bool)
    (m : List (String × Nat × Nat)) (k : String) (e : String × Nat × Nat)
    (hf : m.find? (fun x => x.1 = k) = some e) (hp : p e = true) :
    (m.filter p).find? (fun x => x.1 = k) = some e := by
  induction m with
  | nil => simp at hf
  | cons a rest ih =>
    by_cases ha : a.1 = k
    · rw [List.find?_cons_of_pos _ (by simp [ha])] at hf
      have hae : a = e := Option.some.inj hf
      subst hae
      rw [List.filter_cons, if_pos hp, List.find?_cons_of_pos _ (by simp [ha])]
    · rw [List.find?_cons_of_neg _ (by simp [ha])] at hf
      by_cases hpa : p a = true
      · rw [List.filter_cons, if_pos hpa,
          List.find?_cons_of_neg _ (by simp [ha])]
        exact ih hf
      · rw [List.filter_cons, if_neg hpa]
        exact ih hf

/-- The entry written for the current window survives the prune. -/
lemma dictGet?_prune_dictSet (m : List (String × Nat × Nat)) (k : String)
    (nw c : Nat) :
    dictGet? (inMemPrune (dictSet m k (nw, c)) nw) k = some (nw, c) := by
  unfold inMemPrune
  by_cases hlen : (dictSet m k (nw, c)).length < 4096
  · simp [hlen, dictGet?, find?_dictSet]
  · simp only [if_neg hlen]
    unfold dictGet?
    rw [find?_filter_of_found _ _ k (k, (nw, c)) (find?_dictSet m k (nw, c))
      (by simp)]
    rfl


/-- Evaluation of an enabled `InMemoryRateLimiter.allow` call. -/
lemma inMemAllow_eval (L : InMemoryRateLimiter) (key : String) (now : Nat)
    (h : 0 < L.requests_per_minute) :
    (L.allow key now).1.windows =
      inMemPrune (dictSet L.windows key
        (now / 60, windowCountAfter L.windows key (now / 60))) (now / 60) ∧
    (L.allow key now).2 =
      decide (windowCountAfter L.windows key (now / 60) ≤
        L.requests_per_minute) := by
  have hen : L.enabled = true := by
    unfold InMemoryRateLimiter.enabled
    exact decide_eq_true h
  unfold InMemoryRateLimiter.allow windowCountAfter dictGetD dictGet?
  rw [if_neg (fun hc => hc hen)]
  cases hf : L.windows.find? (fun e => e.1 = key) with
  | none => simp [hf]
  | some wc =>
    by_cases hb : wc.2.1 = now / 60
    · simp [hf, hb]
    · simp [hf, hb]

/-- C5: the in-process limiter's fixed window.  The current bucket is
`now_seconds / 60`; a stored bucket differing from the current one resets
the count to `0` before the increment; the incremented count is stored back
and the call returns `count <= limit`.  With a non-positive configured
limit the limiter is disabled and always allows, leaving the state
unchanged.  Concretely with `requests_per_minute=1`: two calls in bucket 0
return `(true, false)` and a call in bucket 1 returns `true` again. -/
theorem in_memory_allow_fixed_window :
    (∀ (L : InMemoryRateLimiter) (key : String) (nowSeconds : Nat),
      0 < L.requests_per_minute →
      (L.allow key nowSeconds).2 =
        decide (windowCountAfter L.windows key (nowSeconds / 60) ≤
          L.requests_per_minute) ∧
      dictGet? (L.allow key nowSeconds).1.windows key =
        some (nowSeconds / 60,
          windowCountAfter L.windows key (nowSeconds / 60))) ∧
    (∀ rpm : Int, rpm ≤ 0 → ∀ (key : String) (nowSeconds : Nat),
      (mkInMemoryRateLimiter rpm).allow key nowSeconds =
        (mkInMemoryRateLimiter rpm, true)) ∧
    ((mkInMemoryRateLimiter 1).allow "k" 30).2 = true ∧
    (((mkInMemoryRateLimiter 1).allow "k" 30).1.allow "k" 45).2 = false ∧
    ((((mkInMemoryRateLimiter 1).allow "k" 30).1.allow "k" 45).1.allow
      "k" 70).2 = true := by
  refine ⟨?_, ?_, by decide, by decide, by decide⟩
  · intro L key nowSeconds h
    obtain ⟨hw, hr⟩ := inMemAllow_eval L key nowSeconds h
    refine ⟨hr, ?_⟩
    rw [hw]
    exact dictGet?_prune_dictSet _ _ _ _
  · intro rpm hrpm key nowSeconds
    have h0 : (mkInMemoryRateLimiter rpm).requests_per_minute = 0 := by
      simp [mkInMemoryRateLimiter, max_eq_left hrpm]
    unfold InMemoryRateLimiter.allow
    simp [InMemoryRateLimiter.enabled, h0]

/-- C5 witness: the fixed-window equation and the disabled case at concrete
inputs. -/
theorem in_memory_allow_fixed_window_witness :
    (((mkInMemoryRateLimiter 1).allow "k" 30).2 =
      decide (windowCountAfter (mkInMemoryRateLimiter 1).windows "k"
        (30 / 60) ≤ (mkInMemoryRateLimiter 1).requests_per_minute) ∧
      dictGet? ((mkInMemoryRateLimiter 1).allow "k" 30).1.windows "k" =
        some (30 / 60,
          windowCountAfter (mkInMemoryRateLimiter 1).windows "k"
            (30 / 60))) ∧
    (mkInMemoryRateLimiter 0).allow "q" 5 = (mkInMemoryRateLimiter 0, true) :=
  ⟨in_memory_allow_fixed_window.1 (mkInMemoryRateLimiter 1) "k" 30
      (by decide),
   in_memory_allow_fixed_window.2.1 0 (by decide) "q" 5⟩

/-- C9: memory bound of the in-process limiter.  After an enabled `allow`
call, either the map is below the 4096-entry threshold, or every remaining
entry's bucket is at least one less than the current bucket; and the entry
just written for the identity is present with the current bucket (never
pruned). -/
theorem in_memory_prune_invariant :
    ∀ (L : InMemoryRateLimiter) (key : String) (nowSeconds : Nat),
      0 < L.requests_per_minute →
      ((L.allow key nowSeconds).1.windows.length < 4096 ∨
        ∀ e ∈ (L.allow key nowSeconds).1.windows,
          nowSeconds / 60 - 1 ≤ e.2.1) ∧
      (∃ c, dictGet? (L.allow key nowSeconds).1.windows key =
        some (nowSeconds / 60, c)) := by
  intro L key nowSeconds h
  obtain ⟨hw, _⟩ := inMemAllow_eval L key nowSeconds h
  rw [hw]
  constructor
  · unfold inMemPrune
    by_cases hlen : (dictSet L.windows key (nowSeconds / 60,
        windowCountAfter L.windows key (nowSeconds / 60))).length < 4096
    · rw [if_pos hlen]
      exact Or.inl hlen
    · rw [if_neg hlen]
      refine Or.inr ?_
      intro e he
      exact of_decide_eq_true (List.mem_filter.mp he).2
  · exact ⟨_, dictGet?_prune_dictSet _ _ _ _⟩

/-- C9 witness: the invariant at a concrete single-entry state. -/
theorem in_memory_prune_invariant_witness :
    (((mkInMemoryRateLimiter 5).allow "k" 120).1.windows.length < 4096 ∨
      ∀ e ∈ ((mkInMemoryRateLimiter 5).allow "k" 120).1.windows,
        120 / 60 - 1 ≤ e.2.1) ∧
    (∃ c, dictGet? ((mkInMemoryRateLimiter 5).allow "k" 120).1.windows "k" =
      some (120 / 60, c)) :=
  in_memory_prune_invariant (mkInMemoryRateLimiter 5) "k" 120 (by decide)

/-! ## Redis limiter theorems -/

/-- Branch evaluation of an enabled `RedisRateLimiter.allow` call with a
connected client, outside degraded mode. -/
lemma redisAllow_eval (L : RedisRateLimiter) (now : ℚ) (o : StoreOracle)
    (hpos : 0 < L.requests_per_minute) (hc : L.hasClient = true)
    (hnd : ¬ now < L.degraded_until) :
    L.allow now o =
      (match (evalCounter L.script_sha o).outcome with
       | .error _ =>
         ⟨L.fail_open,
           { L with script_sha := (evalCounter L.script_sha o).script_sha,
                    degraded_until :=
                      now + (L.failure_cooldown_seconds : ℚ) },
           true, (evalCounter L.script_sha o).evalResends⟩
       | .ok current =>
         ⟨decide (current ≤ L.requests_per_minute),
           { L with script_sha := (evalCounter L.script_sha o).script_sha,
                    degraded_until := 0 },
           true, (evalCounter L.script_sha o).evalResends⟩) := by
  have hen : L.enabled = true := by
    unfold RedisRateLimiter.enabled
    exact decide_eq_true hpos
  unfold RedisRateLimiter.allow
  rw [if_neg (fun hcon => hcon hen), if_neg (by simp [hc]), if_neg hnd]

/-- C1: degraded-mode circuit of the shared-store limiter.  A store error
during `allow` sets `degraded_until = now + failure_cooldown_seconds` and
returns the `fail_open` policy; while `now < degraded_until` the limiter
returns the policy value, attempts no store operation, and leaves the state
unchanged; a successful store call resets `degraded_until` to `0`. -/
theorem redis_allow_degraded_mode_cycle :
    (∀ (L : RedisRateLimiter) (now : ℚ) (o : StoreOracle),
      0 < L.requests_per_minute → L.hasClient = true →
      ¬ now < L.degraded_until →
      (evalCounter L.script_sha o).outcome = .error () →
      (L.allow now o).result = L.fail_open ∧
      (L.allow now o).state.degraded_until =
        now + (L.failure_cooldown_seconds : ℚ) ∧
      (L.allow now o).storeAttempted = true) ∧
    (∀ (L : RedisRateLimiter) (now : ℚ) (o : StoreOracle),
      0 < L.requests_per_minute → L.hasClient = true →
      now < L.degraded_until →
      (L.allow now o).result = L.fail_open ∧
      (L.allow now o).storeAttempted = false ∧
      (L.allow now o).state = L) ∧
    (∀ (L : RedisRateLimiter) (now : ℚ) (o : StoreOracle) (n : Nat),
      0 < L.requests_per_minute → L.hasClient = true →
      ¬ now < L.degraded_until →
      (evalCounter L.script_sha o).outcome = .ok n →
      (L.allow now o).state.degraded_until = 0 ∧
      (L.allow now o).storeAttempted = true) := by
  refine ⟨?_, ?_, ?_⟩
  · intro L now o hpos hc hnd herr
    rw [redisAllow_eval L now o hpos hc hnd, herr]
    exact ⟨rfl, rfl, rfl⟩
  · intro L now o hpos hc hd
    have hen : L.enabled = true := by
      unfold RedisRateLimiter.enabled
      exact decide_eq_true hpos
    unfold RedisRateLimiter.allow
    rw [if_neg (fun hcon => hcon hen), if_neg (by simp [hc]), if_pos hd]
    exact ⟨rfl, rfl, rfl⟩
  · intro L now o n hpos hc hnd hok
    rw [redisAllow_eval L now o hpos hc hnd, hok]
    exact ⟨rfl, rfl⟩


/-- C1 witness: the error, degraded and success transitions at concrete
states and oracles. -/
theorem redis_allow_degraded_mode_cycle_witness :
    ((exampleRedisLimiter.allow 7 ⟨.ok "sha1", .err, .err⟩).result =
        exampleRedisLimiter.fail_open ∧
      (exampleRedisLimiter.allow 7
        ⟨.ok "sha1", .err, .err⟩).state.degraded_until =
        7 + ((30 : Nat) : ℚ) ∧
      (exampleRedisLimiter.allow 7
        ⟨.ok "sha1", .err, .err⟩).storeAttempted = true) ∧
    (({ exampleRedisLimiter with degraded_until := 50 }.allow 10
        ⟨.ok "sha1", .ok 1, .ok 1⟩).result =
        exampleRedisLimiter.fail_open ∧
      ({ exampleRedisLimiter with degraded_until := 50 }.allow 10
        ⟨.ok "sha1", .ok 1, .ok 1⟩).storeAttempted = false ∧
      ({ exampleRedisLimiter with degraded_until := 50 }.allow 10
        ⟨.ok "sha1", .ok 1, .ok 1⟩).state =
        { exampleRedisLimiter with degraded_until := 50 }) ∧
    ((exampleRedisLimiter.allow 7
        ⟨.ok "sha1", .ok 3, .ok 3⟩).state.degraded_until = 0 ∧
      (exampleRedisLimiter.allow 7
        ⟨.ok "sha1", .ok 3, .ok 3⟩).storeAttempted = true) := by
  refine ⟨?_, ?_, ?_⟩
  · have h := redis_allow_degraded_mode_cycle.1 exampleRedisLimiter 7
      ⟨.ok "sha1", .err, .err⟩ (by decide) rfl (by decide) rfl
    exact h
  · exact redis_allow_degraded_mode_cycle.2.1
      { exampleRedisLimiter with degraded_until := 50 } 10
      ⟨.ok "sha1", .ok 1, .ok 1⟩ (by decide) rfl (by decide)
  · exact redis_allow_degraded_mode_cycle.2.2 exampleRedisLimiter 7
      ⟨.ok "sha1", .ok 3, .ok 3⟩ 3 (by decide) rfl (by decide) rfl

/-- C8: script-handle staleness retry.  With a cached handle, a
`NoScriptError` from `evalsha` triggers exactly one re-send of the full
script via `eval`, whose outcome becomes the operation's outcome; in every
other situation no re-send happens; and when the retry itself raises a
store error, the enclosing `allow` treats it as a normal store error and
enters degraded mode. -/
theorem redis_eval_counter_single_retry :
    (∀ (sha : String) (o : StoreOracle), o.evalsha = .noscript →
      (evalCounter (some sha) o).evalResends = 1 ∧
      (evalCounter (some sha) o).outcome =
        (match o.eval with
         | .ok n => .ok n
         | .err => .error ())) ∧
    (∀ (scriptSha : Option String) (o : StoreOracle),
      o.evalsha ≠ .noscript → (evalCounter scriptSha o).evalResends = 0) ∧
    (∀ (L : RedisRateLimiter) (now : ℚ) (o : StoreOracle) (sha : String),
      0 < L.requests_per_minute → L.hasClient = true →
      ¬ now < L.degraded_until → L.script_sha = some sha →
      o.evalsha = .noscript → o.eval = .err →
      (L.allow now o).result = L.fail_open ∧
      (L.allow now o).state.degraded_until =
        now + (L.failure_cooldown_seconds : ℚ) ∧
      (L.allow now o).evalResends = 1) := by
  have hretry : ∀ (sha : String) (o : StoreOracle), o.evalsha = .noscript →
      (evalCounter (some sha) o).evalResends = 1 ∧
      (evalCounter (some sha) o).outcome =
        (match o.eval with
         | .ok n => .ok n
         | .err => .error ()) := by
    intro sha o hns
    unfold evalCounter evalCounter.run
    rw [hns]
    cases o.eval <;> exact ⟨rfl, rfl⟩
  refine ⟨hretry, ?_, ?_⟩
  · intro scriptSha o hns
    unfold evalCounter evalCounter.run
    cases scriptSha with
    | none =>
      cases o.load with
      | err => rfl
      | ok sha => cases he : o.evalsha <;> simp_all
    | some sha => cases he : o.evalsha <;> simp_all
  · intro L now o sha hpos hc hnd hsha hns herr
    have hout : (evalCounter L.script_sha o).outcome = .error () := by
      rw [hsha]
      rw [(hretry sha o hns).2, herr]
    have hres : (evalCounter L.script_sha o).evalResends = 1 := by
      rw [hsha]
      exact (hretry sha o hns).1
    rw [redisAllow_eval L now o hpos hc hnd, hout]
    exact ⟨rfl, rfl, hres⟩

/-- C8 witness: the stale-handle retry at a concrete limiter and oracle. -/
theorem redis_eval_counter_single_retry_witness :
    ((evalCounter (some "sha1") ⟨.ok "sha1", .noscript, .ok 2⟩).evalResends
        = 1 ∧
      (evalCounter (some "sha1") ⟨.ok "sha1", .noscript, .ok 2⟩).outcome =
        .ok 2) ∧
    (evalCounter (some "sha1") ⟨.ok "sha1", .ok 2, .ok 2⟩).evalResends = 0 ∧
    ((exampleRedisLimiter.allow 3 ⟨.ok "sha1", .noscript, .err⟩).result =
        exampleRedisLimiter.fail_open ∧
      (exampleRedisLimiter.allow 3
        ⟨.ok "sha1", .noscript, .err⟩).state.degraded_until =
        3 + ((30 : Nat) : ℚ) ∧
      (exampleRedisLimiter.allow 3
        ⟨.ok "sha1", .noscript, .err⟩).evalResends = 1) :=
  ⟨redis_eval_counter_single_retry.1 "sha1" ⟨.ok "sha1", .noscript, .ok 2⟩
      rfl,
   redis_eval_counter_single_retry.2.1 (some "sha1")
      ⟨.ok "sha1", .ok 2, .ok 2⟩ (by simp),
   redis_eval_counter_single_retry.2.2 exampleRedisLimiter 3
      ⟨.ok "sha1", .noscript, .err⟩ "sha1" (by decide) rfl (by decide) rfl
      rfl rfl⟩

/-! ## Request-size-guard theorems -/

/-- C3: streamed-body overflow.  The guard keeps a running total of the
received body bytes; the first chunk taking the total over the limit ends
the stream immediately (one message, end-of-body, no further chunk
consumed) and marks the overflow; whenever overflow was marked the final
response is a 413 whose details carry the observed byte count, for both a
normally completing and a raising downstream — both with no
`Content-Length` header (in which case the details contain no
`content_length` key) and with a supplied within-limit `Content-Length`
whose stream then overflows (in which case the declared length is also
recorded). -/
theorem request_size_guard_stream_overflow :
    (∀ (limit received c : Nat) (rest : List Nat),
      limit < received + c →
      guardStream limit received (c :: rest) = (received + c, true, 1)) ∧
    (∀ (limit received : Nat) (chunks : List Nat),
      (guardStream limit received chunks).1 =
        received +
          ((chunks.take (guardStream limit received chunks).2.2).sum)) ∧
    (∀ (path method : String) (maxBytes : Nat) (chunks : List Nat)
        (downstreamRaises : Bool),
      is_request_size_guard_target path method = true →
      (guardStream maxBytes 0 chunks).2.1 = true →
      request_size_guard path method maxBytes none chunks downstreamRaises =
        (.errorResp 413 "PAYLOAD_TOO_LARGE"
          (overflowDetails maxBytes (guardStream maxBytes 0 chunks).1 none),
         (guardStream maxBytes 0 chunks).2.2) ∧
      List.lookup "request_body_bytes"
        (overflowDetails maxBytes (guardStream maxBytes 0 chunks).1 none) =
        some ((guardStream maxBytes 0 chunks).1 : Int) ∧
      List.lookup "content_length"
        (overflowDetails maxBytes (guardStream maxBytes 0 chunks).1 none) =
        none) ∧
    (∀ (path method : String) (maxBytes : Nat) (s : String)
        (chunks : List Nat) (downstreamRaises : Bool) (v : Int),
      is_request_size_guard_target path method = true →
      pyInt? (pyStripS s) = some v →
      ¬ (maxBytes : Int) < v →
      (guardStream maxBytes 0 chunks).2.1 = true →
      request_size_guard path method maxBytes (some s) chunks
          downstreamRaises =
        (.errorResp 413 "PAYLOAD_TOO_LARGE"
          (overflowDetails maxBytes (guardStream maxBytes 0 chunks).1
            (some v)),
         (guardStream maxBytes 0 chunks).2.2) ∧
      List.lookup "request_body_bytes"
        (overflowDetails maxBytes (guardStream maxBytes 0 chunks).1
          (some v)) =
        some ((guardStream maxBytes 0 chunks).1 : Int) ∧
      List.lookup "content_length"
        (overflowDetails maxBytes (guardStream maxBytes 0 chunks).1
          (some v)) = some v) := by
  refine ⟨?_, ?_, ?_, ?_⟩
  · intro limit received c rest h
    unfold guardStream
    rw [if_pos h]
  · intro limit received chunks
    induction chunks generalizing received with
    | nil => simp [guardStream]
    | cons c rest ih =>
      unfold guardStream
      by_cases hlt : limit < received + c
      · rw [if_pos hlt]
        simp
      · rw [if_neg hlt]
        simp only [List.take_succ_cons, List.sum_cons]
        rw [ih (received + c)]
        omega
  · intro path method maxBytes chunks downstreamRaises htgt hover
    unfold request_size_guard
    rw [if_pos htgt]
    have hcore : requestSizeGuardCore maxBytes none chunks downstreamRaises =
        requestSizeGuardCore.streamPhase maxBytes chunks
          downstreamRaises none := rfl
    rw [hcore]
    unfold requestSizeGuardCore.streamPhase
    rw [if_pos hover]
    exact ⟨rfl, rfl, rfl⟩
  · intro path method maxBytes s chunks downstreamRaises v htgt hv hle hover
    have hne : pyStripS s ≠ "" := by
      intro h0
      have hnone : pyInt? "" = none := by decide
      rw [h0, hnone] at hv
      exact Option.noConfusion hv
    unfold request_size_guard
    rw [if_pos htgt]
    unfold requestSizeGuardCore
    simp only [Option.getD, if_neg hne]
    rw [hv]
    simp only []
    rw [if_neg hle]
    unfold requestSizeGuardCore.streamPhase
    rw [if_pos hover]
    exact ⟨rfl, rfl, rfl⟩

/-- C3 witness: a chunked request of sizes `32+32+100+100` against a limit
of 64 bytes, with no `Content-Length` and with a lying within-limit
`Content-Length: 50`. -/
theorem request_size_guard_stream_overflow_witness :
    guardStream 64 0 [100, 7] = (0 + 100, true, 1) ∧
    (guardStream 64 0 [32, 32, 100, 100]).1 =
      0 + (([32, 32, 100, 100].take
        (guardStream 64 0 [32, 32, 100, 100]).2.2).sum) ∧
    (request_size_guard "/api/items" "POST" 64 none [32, 32, 100, 100]
        true =
      (.errorResp 413 "PAYLOAD_TOO_LARGE"
        (overflowDetails 64 (guardStream 64 0 [32, 32, 100, 100]).1 none),
       (guardStream 64 0 [32, 32, 100, 100]).2.2) ∧
      List.lookup "request_body_bytes"
        (overflowDetails 64 (guardStream 64 0 [32, 32, 100, 100]).1 none) =
        some ((guardStream 64 0 [32, 32, 100, 100]).1 : Int) ∧
      List.lookup "content_length"
        (overflowDetails 64 (guardStream 64 0 [32, 32, 100, 100]).1 none) =
        none) ∧
    (request_size_guard "/api/items" "POST" 64 (some "50")
        [32, 32, 100, 100] false =
      (.errorResp 413 "PAYLOAD_TOO_LARGE"
        (overflowDetails 64 (guardStream 64 0 [32, 32, 100, 100]).1
          (some 50)),
       (guardStream 64 0 [32, 32, 100, 100]).2.2) ∧
      List.lookup "request_body_bytes"
        (overflowDetails 64 (guardStream 64 0 [32, 32, 100, 100]).1
          (some 50)) =
        some ((guardStream 64 0 [32, 32, 100, 100]).1 : Int) ∧
      List.lookup "content_length"
        (overflowDetails 64 (guardStream 64 0 [32, 32, 100, 100]).1
          (some 50)) = some 50) :=
  ⟨request_size_guard_stream_overflow.1 64 0 100 [7] (by decide),
   request_size_guard_stream_overflow.2.1 64 0 [32, 32, 100, 100],
   request_size_guard_stream_overflow.2.2.1 "/api/items" "POST" 64
     [32, 32, 100, 100] true (by decide) (by decide),
   request_size_guard_stream_overflow.2.2.2 "/api/items" "POST" 64 "50"
     [32, 32, 100, 100] false 50 (by decide) (by decide) (by decide)
     (by decide)⟩

/-- C4: Content-Length pre-checks on guarded requests.  A non-empty header
value that does not parse as a Python integer yields an immediate
`400 BAD_REQUEST` (distinct from the 413 path); a parsed value strictly
above the limit yields an immediate 413 whose details carry the declared
length and the configured limit; both happen with zero body chunks
consumed. -/
theorem request_size_guard_content_length_prechecks :
    ∀ (path method : String) (maxBytes : Nat) (s : String)
      (chunks : List Nat) (downstreamRaises : Bool),
      is_request_size_guard_target path method = true →
      pyStripS s ≠ "" →
      (pyInt? (pyStripS s) = none →
        request_size_guard path method maxBytes (some s) chunks
          downstreamRaises = (.errorResp 400 "BAD_REQUEST" [], 0)) ∧
      (∀ v : Int, pyInt? (pyStripS s) = some v → (maxBytes : Int) < v →
        request_size_guard path method maxBytes (some s) chunks
          downstreamRaises =
          (.errorResp 413 "PAYLOAD_TOO_LARGE"
            [("max_request_body_bytes", (maxBytes : Int)),
             ("content_length", v)], 0) ∧
        List.lookup "content_length"
          [("max_request_body_bytes", (maxBytes : Int)),
           ("content_length", v)] = some v ∧
        List.lookup "max_request_body_bytes"
          [("max_request_body_bytes", (maxBytes : Int)),
           ("content_length", v)] = some (maxBytes : Int)) := by
  intro path method maxBytes s chunks downstreamRaises htgt hne
  unfold request_size_guard
  rw [if_pos htgt]
  unfold requestSizeGuardCore
  simp only [Option.getD, if_neg hne]
  constructor
  · intro h0
    rw [h0]
  · intro v hv hlt
    rw [hv]
    simp only []
    rw [if_pos hlt]
    exact ⟨rfl, rfl, rfl⟩

/-- C4 witness: `Content-Length: 1000` and `Content-Length: invalid`
against a 64-byte limit. -/
theorem request_size_guard_content_length_prechecks_witness :
    (pyInt? (pyStripS "invalid") = none →
      request_size_guard "/api/items" "POST" 64 (some "invalid") [10] false =
        (.errorResp 400 "BAD_REQUEST" [], 0)) ∧
    (∀ v : Int, pyInt? (pyStripS "1000") = some v → ((64 : Nat) : Int) < v →
      request_size_guard "/api/items" "POST" 64 (some "1000") [10] false =
        (.errorResp 413 "PAYLOAD_TOO_LARGE"
          [("max_request_body_bytes", ((64 : Nat) : Int)),
           ("content_length", v)], 0) ∧
      List.lookup "content_length"
        [("max_request_body_bytes", ((64 : Nat) : Int)),
         ("content_length", v)] = some v ∧
      List.lookup "max_request_body_bytes"
        [("max_request_body_bytes", ((64 : Nat) : Int)),
         ("content_length", v)] = some ((64 : Nat) : Int)) :=
  ⟨(request_size_guard_content_length_prechecks "/api/items" "POST" 64
      "invalid" [10] false (by decide) (by decide)).1,
   (request_size_guard_content_length_prechecks "/api/items" "POST" 64
      "1000" [10] false (by decide) (by decide)).2⟩

/-! ## Startup-validation theorems -/



/-- C7 counterexample: a configuration with a non-positive
`window_seconds` passes startup validation and the limiter is built
successfully with the value silently clamped to `1` — startup is not
refused. -/
theorem validate_accepts_nonpositive_window_seconds :
    exampleConfigWindowZero.RATE_LIMIT_REDIS_WINDOW_SECONDS = 0 ∧
    validate_startup_config exampleConfigWindowZero = .ok () ∧
    build_rate_limiter exampleConfigWindowZero true =
      .ok (.redis exampleClampedLimiter) ∧
    exampleClampedLimiter.window_seconds = 1 := by
  exact ⟨rfl, by decide, by decide, rfl⟩

lemma ite_error_ok {c : Prop} [Decidable c] {e : String}
    {rest : Except String Unit}
    (h : (if c then Except.error e else rest) = .ok ()) :
    ¬c ∧ rest = .ok () := by
  by_cases hc : c
  · rw [if_pos hc] at h
    exact absurd h (by simp)
  · rw [if_neg hc] at h
    exact ⟨hc, h⟩

/-- C7 (amended): invalid backend name, missing store URL under the redis
backend, non-positive `failure_cooldown_seconds`, and non-positive
`max_request_body_bytes` are each fatal at startup (`validate_startup_config`
succeeds only without them); a non-positive `window_seconds` is not checked
anywhere — the limiter constructor clamps it to `max(1, window_seconds)`. -/
theorem startup_validation_fatal_checks :
    (∀ config : Config, validate_startup_config config = .ok () →
      (config.rate_limit_backend = "memory" ∨
        config.rate_limit_backend = "redis") ∧
      (config.rate_limit_backend = "redis" →
        pyStripS (config.REDIS_URL.getD "") ≠ "") ∧
      0 < config.RATE_LIMIT_REDIS_FAILURE_COOLDOWN_SECONDS ∧
      0 < config.MAX_REQUEST_BODY_BYTES) ∧
    (∀ (rpm w cd : Int) (fo : Bool),
      ∃ L, mkRedisRateLimiter rpm w cd fo true = .ok L ∧
        L.window_seconds = (max 1 w).toNat) := by
  constructor
  · intro config h
    unfold validate_startup_config at h
    obtain ⟨hB, h⟩ := ite_error_ok h
    obtain ⟨hAK, h⟩ := ite_error_ok h
    obtain ⟨hJS, h⟩ := ite_error_ok h
    obtain ⟨hJB, h⟩ := ite_error_ok h
    obtain ⟨hJA, h⟩ := ite_error_ok h
    obtain ⟨hLE, h⟩ := ite_error_ok h
    obtain ⟨hBE, h⟩ := ite_error_ok h
    obtain ⟨hRU, h⟩ := ite_error_ok h
    obtain ⟨hCD, h⟩ := ite_error_ok h
    obtain ⟨hP1, h⟩ := ite_error_ok h
    obtain ⟨hP2, h⟩ := ite_error_ok h
    obtain ⟨hP3, h⟩ := ite_error_ok h
    obtain ⟨hP4, h⟩ := ite_error_ok h
    obtain ⟨hP5, h⟩ := ite_error_ok h
    obtain ⟨hP6, h⟩ := ite_error_ok h
    obtain ⟨hIN, h⟩ := ite_error_ok h
    obtain ⟨hMB, h⟩ := ite_error_ok h
    refine ⟨?_, fun hr h0 => hRU ⟨hr, h0⟩, by omega, by omega⟩
    by_cases hm : config.rate_limit_backend = "memory"
    · exact Or.inl hm
    · rcases not_and_or.mp hBE with h1 | h1
      · exact absurd (not_not.mp h1) hm
      · exact Or.inr (not_not.mp h1)
  · intro rpm w cd fo
    unfold mkRedisRateLimiter
    rw [if_neg (fun hcon => hcon.2 rfl)]
    exact ⟨_, rfl, rfl⟩

/-- C7 witness: the fatal checks instantiated at the window-zero
configuration (which validates successfully) and the clamp at
`window_seconds = 0`. -/
theorem startup_validation_fatal_checks_witness :
    (((exampleConfigWindowZero.rate_limit_backend = "memory" ∨
        exampleConfigWindowZero.rate_limit_backend = "redis") ∧
      (exampleConfigWindowZero.rate_limit_backend = "redis" →
        pyStripS (exampleConfigWindowZero.REDIS_URL.getD "") ≠ "") ∧
      0 < exampleConfigWindowZero.RATE_LIMIT_REDIS_FAILURE_COOLDOWN_SECONDS ∧
      0 < exampleConfigWindowZero.MAX_REQUEST_BODY_BYTES)) ∧
    (∃ L, mkRedisRateLimiter 10 0 5 true true = .ok L ∧
      L.window_seconds = (max 1 (0 : Int)).toNat) :=
  ⟨startup_validation_fatal_checks.1 exampleConfigWindowZero rfl,
   startup_validation_fatal_checks.2 10 0 5 true⟩

end CivicArchive
